import Mathlib

/-!
Verification of the jest-allure-circus event-to-report state machine
(src/allure-reporter.ts, src/allure-base-environment.ts).

The reporter is shallowly embedded: the mutable class fields become an
explicit `ReporterState`, each lifecycle method becomes a function from
state to a result that is either a new state or a raised error carrying
the state at the moment of the throw.  External collaborators (the
allure-js-commons report sink, jest-docblock, prettier) are modelled at
the interface granularity the reporter observes, following spec section 6.
-/

namespace AllureCircus

/-- Report status values (allure-js-commons `Status`). -/
inductive Status where
  | FAILED
  | BROKEN
  | PASSED
  | SKIPPED
deriving DecidableEq, Repr

/-- Report stage values (allure-js-commons `Stage`).  Freshly created sink
entities start in `PENDING`; the reporter moves tests to `RUNNING` at
`startTestCase` and entities to `FINISHED` when they are resolved. -/
inductive Stage where
  | SCHEDULED
  | RUNNING
  | FINISHED
  | PENDING
  | INTERRUPTED
deriving DecidableEq, Repr

/-- Payload of `statusDetails`: message and trace, either possibly absent. -/
structure StatusDetails where
  message : Option String := none
  trace : Option String := none
deriving DecidableEq, Repr

/-- A link attached to a test (`addLink(url, name, type)`). -/
structure Link where
  url : String
  name : String
  type : String
deriving DecidableEq, Repr

/-- Modelled from the spec: the `Labels` record of the repository module
`jest-allure-interface` (not under src/): "Label: (name, value, optional
ordinal index)" (spec section 3); field reads `lb.name`, `lb.value`,
`lb.index` appear in `attachLabelsInConcurrent`. -/
structure Labels where
  name : String
  value : String
  index : Option Nat := none
deriving DecidableEq, Repr

/-! allure-js-commons `LabelName` string constants used by the reporter. -/

namespace LabelName

def PARENT_SUITE : String := "parentSuite"
def PACKAGE : String := "package"
def SUITE : String := "suite"
def SUB_SUITE : String := "subSuite"
def TAG : String := "tag"
def THREAD : String := "thread"

end LabelName

/-! ## MD5 (Node createHash("md5").update(s).digest("hex")) -/

namespace MD5

/-- UTF-8 encoding of one code point, as byte values. -/
def utf8Bytes (n : Nat) : List Nat :=
  if n < 0x80 then [n]
  else if n < 0x800 then [0xc0 + n / 64, 0x80 + n % 64]
  else if n < 0x10000 then
    [0xe0 + n / 4096, 0x80 + n / 64 % 64, 0x80 + n % 64]
  else
    [0xf0 + n / 262144, 0x80 + n / 4096 % 64, 0x80 + n / 64 % 64, 0x80 + n % 64]

/-- UTF-8 bytes of a string (`update` hashes the UTF-8 encoding). -/
def strToBytes (s : String) : List Nat :=
  (s.data.map (fun c => utf8Bytes c.toNat)).flatten

/-- The 64 per-round additive constants of MD5 (RFC 1321). -/
def K : List Nat :=
  [0xd76aa478, 0xe8c7b756, 0x242070db, 0xc1bdceee,
   0xf57c0faf, 0x4787c62a, 0xa8304613, 0xfd469501,
   0x698098d8, 0x8b44f7af, 0xffff5bb1, 0x895cd7be,
   0x6b901122, 0xfd987193, 0xa679438e, 0x49b40821,
   0xf61e2562, 0xc040b340, 0x265e5a51, 0xe9b6c7aa,
   0xd62f105d, 0x02441453, 0xd8a1e681, 0xe7d3fbc8,
   0x21e1cde6, 0xc33707d6, 0xf4d50d87, 0x455a14ed,
   0xa9e3e905, 0xfcefa3f8, 0x676f02d9, 0x8d2a4c8a,
   0xfffa3942, 0x8771f681, 0x6d9d6122, 0xfde5380c,
   0xa4beea44, 0x4bdecfa9, 0xf6bb4b60, 0xbebfbc70,
   0x289b7ec6, 0xeaa127fa, 0xd4ef3085, 0x04881d05,
   0xd9d4d039, 0xe6db99e5, 0x1fa27cf8, 0xc4ac5665,
   0xf4292244, 0x432aff97, 0xab9423a7, 0xfc93a039,
   0x655b59c3, 0x8f0ccc92, 0xffeff47d, 0x85845dd1,
   0x6fa87e4f, 0xfe2ce6e0, 0xa3014314, 0x4e0811a1,
   0xf7537e82, 0xbd3af235, 0x2ad7d2bb, 0xeb86d391]

/-- The 64 per-round left-rotation amounts of MD5. -/
def S : List Nat :=
  [7, 12, 17, 22, 7, 12, 17, 22, 7, 12, 17, 22, 7, 12, 17, 22,
   5, 9, 14, 20, 5, 9, 14, 20, 5, 9, 14, 20, 5, 9, 14, 20,
   4, 11, 16, 23, 4, 11, 16, 23, 4, 11, 16, 23, 4, 11, 16, 23,
   6, 10, 15, 21, 6, 10, 15, 21, 6, 10, 15, 21, 6, 10, 15, 21]

/-- Left rotation within 32 bits on `Nat` values below `2 ^ 32`. -/
def rotl32 (x n : Nat) : Nat :=
  ((x * 2 ^ n) % 4294967296 + x / 2 ^ (32 - n)) % 4294967296

/-- One of the 64 MD5 mixing steps. -/
def md5Step (M : Nat → Nat) (st : Nat × Nat × Nat × Nat) (i : Nat) :
    Nat × Nat × Nat × Nat :=
  let (a, b, c, d) := st
  let fg : Nat × Nat :=
    if i < 16 then ((b &&& c) ||| ((4294967295 ^^^ b) &&& d), i)
    else if i < 32 then ((d &&& b) ||| ((4294967295 ^^^ d) &&& c), (5 * i + 1) % 16)
    else if i < 48 then (b ^^^ c ^^^ d, (3 * i + 5) % 16)
    else (c ^^^ (b ||| (4294967295 ^^^ d)), (7 * i) % 16)
  let f := (fg.1 + a + K.getD i 0 + M fg.2) % 4294967296
  (d, (b + rotl32 f (S.getD i 0)) % 4294967296, b, c)

/-- Process one 512-bit chunk (64 bytes, little-endian words). -/
def processChunk (st : Nat × Nat × Nat × Nat) (chunk : List Nat) :
    Nat × Nat × Nat × Nat :=
  let M : Nat → Nat := fun j =>
    chunk.getD (4 * j) 0 + 256 * chunk.getD (4 * j + 1) 0 +
      65536 * chunk.getD (4 * j + 2) 0 + 16777216 * chunk.getD (4 * j + 3) 0
  let (a0, b0, c0, d0) := st
  let r := (List.range 64).foldl (md5Step M) (a0, b0, c0, d0)
  ((a0 + r.1) % 4294967296, (b0 + r.2.1) % 4294967296,
   (c0 + r.2.2.1) % 4294967296, (d0 + r.2.2.2) % 4294967296)

/-- MD5 padding: `0x80`, zeros to 56 mod 64, then the 64-bit bit length
little-endian. -/
def pad (msg : List Nat) : List Nat :=
  let len := msg.length
  let bitLen := (len * 8) % (2 ^ 64)
  let padLen := (64 + 56 - (len + 1) % 64) % 64
  msg ++ [0x80] ++ List.replicate padLen 0 ++
    ((List.range 8).map (fun i => bitLen / 256 ^ i % 256))

/-- Split a byte list into 64-byte chunks (fuel-structured so that the
kernel can evaluate it; the fuel bounds the number of chunks). -/
def toChunksAux : Nat → List Nat → List (List Nat)
  | 0, _ => []
  | _, [] => []
  | fuel + 1, l => l.take 64 :: toChunksAux fuel (l.drop 64)

/-- Split a byte list into 64-byte chunks. -/
def toChunks (l : List Nat) : List (List Nat) :=
  toChunksAux l.length l

/-- Lowercase hex digit. -/
def hexDigit (n : Nat) : Char :=
  if n < 10 then Char.ofNat (48 + n) else Char.ofNat (87 + n)

/-- Two lowercase hex digits of a byte. -/
def byteHex (n : Nat) : String :=
  String.mk [hexDigit (n / 16 % 16), hexDigit (n % 16)]

/-- Hex rendering of a 32-bit word, little-endian byte order. -/
def wordHex (w : Nat) : String :=
  byteHex (w % 256) ++ byteHex (w / 256 % 256) ++
    byteHex (w / 65536 % 256) ++ byteHex (w / 16777216 % 256)

end MD5

/-- Model of createHash("md5").update(s).digest("hex"): the lowercase hex
MD5 digest of the UTF-8 bytes of `s`. -/
def md5Hex (s : String) : String :=
  let padded := MD5.pad (MD5.strToBytes s)
  let r := (MD5.toChunks padded).foldl MD5.processChunk
    (0x67452301, 0xefcdab89, 0x98badcfe, 0x10325476)
  MD5.wordHex r.1 ++ MD5.wordHex r.2.1 ++ MD5.wordHex r.2.2.1 ++ MD5.wordHex r.2.2.2

/-! ## JavaScript string semantics helpers -/

/-- JS truthiness of a possibly-undefined string: `undefined` and the empty
string are falsy. -/
def truthy : Option String → Bool
  | none => false
  | some s => s ≠ ""

/-- JS `a || b` on possibly-undefined strings: `a` unless it is falsy. -/
def jsOr (a b : Option String) : Option String :=
  match a with
  | some s => if s = "" then b else some s
  | none => b

/-- JS string coercion of a possibly-undefined string (as performed by
`String.prototype.includes` / `replace` on a non-string argument). -/
def jsToString : Option String → String
  | some s => s
  | none => "undefined"

/-- JS `String.prototype.startsWith` (kernel-evaluable). -/
def strStartsWith (s pre : String) : Bool :=
  List.isPrefixOf pre.data s.data

/-- Index of the first occurrence of `sep` in a character list. -/
def firstOcc (sep : List Char) : List Char → Option Nat
  | [] => if List.isPrefixOf sep [] then some 0 else none
  | c :: cs =>
    if List.isPrefixOf sep (c :: cs) then some 0
    else (firstOcc sep cs).map (· + 1)

/-- Split a character list on a nonempty separator; the fuel bounds the
number of pieces (each step consumes at least one character). -/
def splitListAux (sep : List Char) : Nat → List Char → List (List Char)
  | 0, l => [l]
  | fuel + 1, l =>
    match firstOcc sep l with
    | none => [l]
    | some i => l.take i :: splitListAux sep fuel (l.drop (i + sep.length))

/-- JS `String.prototype.split(sep)` with a nonempty string separator
(kernel-evaluable; agrees with `String.splitOn` on nonempty separators). -/
def strSplitOn (s sep : String) : List String :=
  if sep = "" then [s]
  else (splitListAux sep.data (s.data.length + 1) s.data).map String.mk

/-- JS `String.prototype.includes(sub)`. -/
def strIncludes (s sub : String) : Bool :=
  if sub = "" then true else (strSplitOn s sub).length ≠ 1

/-- JS `String.prototype.replace(sub, repl)` with a string pattern: replaces
only the first occurrence. -/
def strReplaceFirst (s sub repl : String) : String :=
  if sub = "" then repl ++ s
  else
    match strSplitOn s sub with
    | [] => s
    | [x] => x
    | x :: rest => x ++ repl ++ String.intercalate sub rest

/-! ## ANSI escape stripping

`replaceANSITags` applies the global regex
`[\u001b\u009b][[()#;?]*(?:[0-9]{1,4}(?:;[0-9]{0,4})*)?[0-9A-ORZcf-nqry=><]`
with the empty replacement string.  The matcher below implements this pattern
with JS backtracking semantics. -/

namespace Ansi

/-- Initial character class `[\u001b\u009b]`. -/
def isInit (c : Char) : Bool := c.toNat = 0x1b || c.toNat = 0x9b

/-- Character class `[[()#;?]`. -/
def isBracketClass (c : Char) : Bool :=
  c = '[' || c = '(' || c = ')' || c = '#' || c = ';' || c = '?'

/-- Character class `[0-9]`. -/
def isDigit (c : Char) : Bool := '0' ≤ c && c ≤ '9'

/-- Final character class `[0-9A-ORZcf-nqry=><]`. -/
def isFinal (c : Char) : Bool :=
  isDigit c || ('A' ≤ c && c ≤ 'O') || c = 'R' || c = 'Z' || c = 'c' ||
    ('f' ≤ c && c ≤ 'n') || c = 'q' || c = 'r' || c = 'y' ||
    c = '=' || c = '>' || c = '<'

/-- Length of the leading digit run. -/
def digitRun : List Char → Nat
  | c :: cs => if isDigit c then digitRun cs + 1 else 0
  | [] => 0

/-- Remainders after `[0-9]{lo,hi}` in greedy backtracking order
(longest consumption first). -/
def digitChoices (lo hi : Nat) (l : List Char) : List (List Char) :=
  let run := min (digitRun l) hi
  (List.range (run + 1)).reverse.filterMap
    (fun k => if lo ≤ k then some (l.drop k) else none)

/-- Remainders after `(?:;[0-9]{0,4})*` in greedy backtracking order.
Each iteration consumes the `;`, so the fuel `l.length` suffices. -/
def semiStar : Nat → List Char → List (List Char)
  | 0, l => [l]
  | fuel + 1, l =>
    match l with
    | ';' :: rest =>
      ((digitChoices 0 4 rest).map (fun r => semiStar fuel r)).flatten ++ [l]
    | _ => [l]

/-- Remainders after `(?:[0-9]{1,4}(?:;[0-9]{0,4})*)?` in greedy
backtracking order (the present alternative first, absence last). -/
def numOpt (l : List Char) : List (List Char) :=
  ((digitChoices 1 4 l).map (fun r => semiStar r.length r)).flatten ++ [l]

/-- Try to consume the mandatory final character. -/
def tryFinal : List Char → Option (List Char)
  | c :: rest => if isFinal c then some rest else none
  | [] => none

/-- Match the pattern tail `[[()#;?]*(?:...)?[final]` after the initial
escape character.  The bracket-class run is consumed in full: a shorter
run would leave a bracket-class character, which can start neither the
numeric part nor the final class. -/
def matchTail (l : List Char) : Option (List Char) :=
  (numOpt (l.dropWhile isBracketClass)).findSome? tryFinal

/-- Global scan: delete every match, resume after each match end; the fuel
`length` suffices because every step consumes at least one character. -/
def stripAux : Nat → List Char → List Char
  | 0, l => l
  | _, [] => []
  | fuel + 1, c :: cs =>
    if isInit c then
      match matchTail cs with
      | some rest => stripAux fuel rest
      | none => c :: stripAux fuel cs
    else
      c :: stripAux fuel cs

end Ansi

/-- Model of `replaceANSITags`: strip ANSI/CSI escape sequences (global
regex replace with the empty string). -/
def replaceANSITags (entry : String) : String :=
  String.mk (Ansi.stripAux entry.data.length entry.data)

/-! ## Error Classifier (`AllureReporter.handleError`) -/

/-- The matcher result carried by assertion failures.  In the source the
`message` field may be a string or a zero-argument function returning a
string; both forms yield the rendered message modelled here. -/
structure MatcherResult where
  message : String
deriving DecidableEq, Repr

/-- A JS error object as read by `handleError`: every field access is on a
possibly-absent property. -/
structure JsError where
  name : Option String := none
  message : Option String := none
  stack : Option String := none
  matcherResult : Option MatcherResult := none
deriving DecidableEq, Repr

/-- The error argument may be an error object or (from the test_done
event) arbitrarily nested arrays of error objects. -/
inductive ErrVal where
  | err (e : JsError)
  | arr (l : List ErrVal)

/-- Model of `lodash.flattenDeep` on the nested-array form. -/
def flattenDeep : ErrVal → List JsError
  | .err e => [e]
  | .arr [] => []
  | .arr (v :: vs) => flattenDeep v ++ flattenDeep (.arr vs)

/-- The classified `{status, message, trace}` triple. -/
structure Classified where
  status : Status
  message : String
  trace : String
deriving DecidableEq, Repr

/-- The classifier `handleError` on a single error object.  Returns `none` where the
source would throw a `TypeError`: when the final trace is the raw error
object or `undefined`, `replaceANSITags` calls `.replace` on a
non-string. -/
def handleError (e : JsError) : Option Classified :=
  let message0 : Option String := e.name
  let trace0 : Option String := jsOr e.stack e.message
  let smt : Status × Option String × Option String :=
    match e.matcherResult with
    | some mr =>
      let lines := strSplitOn mr.message "\n"
      let line1 := lines.headD ""
      let line2 := lines[1]?.getD ""
      let rest := lines.drop 2
      (Status.FAILED, some (line1 ++ "\n" ++ line2),
        jsOr e.stack (some (String.intercalate "\n" rest)))
    | none => (Status.BROKEN, message0, trace0)
  let status := smt.1
  let message := smt.2.1
  let trace := smt.2.2
  -- if (!message && trace) { message = trace; trace = error.stack?.replace(message, ...) }
  let mt : Option String × Option String :=
    if ¬ truthy message ∧ truthy trace then
      (trace, e.stack.map (fun st => strReplaceFirst st (jsToString trace) "No stack trace provided"))
    else (message, trace)
  let message := mt.1
  let trace := mt.2
  -- if (trace?.includes(message)) trace = trace?.replace(message, "")
  let trace : Option String :=
    match trace with
    | some t =>
      if strIncludes t (jsToString message) then
        some (strReplaceFirst t (jsToString message) "")
      else some t
    | none => none
  -- if (!message) set the placeholder message and trace = error (raw object)
  -- then replaceANSITags(trace) throws: the raw error object has no .replace
  if ¬ truthy message then none
  else
    match trace with
    | none => none  -- replaceANSITags(undefined) throws
    | some t =>
      some { status := status,
             message := replaceANSITags (jsToString message),
             trace := replaceANSITags t }

/-- Entry to `handleError` including the array flattening: an empty array
would make `_.flattenDeep(error)[0]` undefined and the following property
access throw. -/
def classifyError : ErrVal → Option Classified
  | .err e => handleError e
  | .arr l =>
    match flattenDeep (.arr l) with
    | [] => none
    | e :: _ => handleError e

/-! ## Reporter state

The mutable fields of `AllureReporter`, with the sink handles the stacks
hold represented by value.  Hooks (`addBefore`/`addAfter` fixtures) live in
`execs`, the sink-side list of every fixture created, with
`currentExecutable` an index into it, because `endHook` mutates the latest
fixture through the retained reference. -/

/-- The sink-side test handle (`AllureTest`): the fields the reporter reads
or writes.  `closed` records that `endTest()` was called on the sink. -/
structure TestState where
  name : String := ""
  fullName : String := ""
  historyId : String := ""
  stage : Stage := Stage.PENDING
  status : Option Status := none
  statusDetails : Option StatusDetails := none
  labels : List (String × String) := []
  links : List Link := []
  closed : Bool := false
deriving DecidableEq, Repr

/-- The sink-side step handle (`AllureStep`).  Steps are created only by
the interface module (not under src/); the reporter only force-closes
them in `endSuite`, which is all that is observable here. -/
structure StepState where
  closed : Bool := false
deriving DecidableEq, Repr

/-- The sink-side fixture handle (`ExecutableItemWrapper`); fixtures are
created by `addBefore`/`addAfter` in a pending stage, their status unset
until resolved (spec section 3 data model). -/
structure ExecState where
  status : Option Status := none
  stage : Stage := Stage.PENDING
  statusDetails : Option StatusDetails := none
deriving DecidableEq, Repr

/-- The sink-side group handle (`AllureGroup`). -/
structure SuiteState where
  name : String := ""
deriving DecidableEq, Repr

/-- An entry of the `tests` argument of `startSuite`
(`Array<Record<string, string>>`; only `.name` is read). -/
structure TestRec where
  name : String
deriving DecidableEq, Repr

/-- A circus `TestEntry` as read by the reporter: `name`, `mode` (for
`pendingTestCase`) and the test function.  The docblock parse of the
serialized function (jest-docblock) and the code formatting (prettier)
are external; the model carries the parse result the reporter consumes. -/
inductive PragmaValue where
  | str (s : String)
  | arr (l : List String)
deriving DecidableEq, Repr

/-- Parsed artifacts of a present test function. -/
structure TestFn where
  pragmas : List (String × PragmaValue) := []
deriving DecidableEq, Repr

/-- A circus test entry. -/
structure TestEntry where
  name : String
  mode : Option String := none
  fn : Option TestFn := none
deriving DecidableEq, Repr

/-- The mutable reporter fields.  `writtenTests` is the sink-side list of
written test results (`endTest` writes the result). -/
structure ReporterState where
  suites : List SuiteState := []
  steps : List StepState := []
  tests : List TestState := []
  execs : List ExecState := []
  currentExecutable : Option Nat := none
  testNames : List String := []
  labels : List Labels := []
  writtenTests : List TestState := []
deriving DecidableEq, Repr

/-- Constructor-derived configuration of the reporter (plus the
platform-dependent path delimiter choice of `addSuiteLabelsToTestCase`). -/
structure Config where
  jiraUrl : String := "https://github.com/c4lifa/jest-allure-circus/blob/master/README.md"
  tmsUrl : String := "https://github.com/c4lifa/jest-allure-circus/blob/master/README.md"
  addCodeInReport : Bool := true
  isWindows : Bool := false
deriving DecidableEq, Repr

/-- A fresh reporter (environment-info and category writes to the sink are
construction-time sink effects outside the modelled state). -/
def initState : ReporterState := {}

/-- Result of a reporter operation: a new state, or a raised error carrying
the message and the state at the moment of the throw. -/
inductive StepResult where
  | ok (s : ReporterState)
  | raised (msg : String) (s : ReporterState)
deriving DecidableEq, Repr

/-- The state carried by either outcome. -/
def StepResult.stateOf : StepResult → ReporterState
  | .ok s => s
  | .raised _ s => s

/-- Whether the operation returned normally. -/
def StepResult.isOk : StepResult → Bool
  | .ok _ => true
  | .raised _ _ => false

namespace AllureReporter

/-- Getter `currentSuite`: top of the suite stack. -/
def currentSuite (s : ReporterState) : Option SuiteState := s.suites.getLast?

/-- Getter `currentTest`: top of the test stack. -/
def currentTest (s : ReporterState) : Option TestState := s.tests.getLast?

/-- The executable `currentExecutable` refers to. -/
def currentExec (s : ReporterState) : Option ExecState :=
  s.currentExecutable.bind (fun i => s.execs[i]?)

/-- Sink call `currentTest.addLabel(name, value)`. -/
def addLabel (t : TestState) (n v : String) : TestState :=
  { t with labels := t.labels ++ [(n, v)] }

/-- Sink call `currentTest.addLink(url, name, type)`. -/
def addLink (t : TestState) (url n ty : String) : TestState :=
  { t with links := t.links ++ [{ url := url, name := n, type := ty }] }

/-- JS test `value instanceof String`: jest-docblock produces primitive strings
and arrays of primitive strings, never `String` wrapper objects, so this
test is false on every value that reaches it. -/
def jsInstanceofString (_ : PragmaValue) : Bool := false

/-- The gate of `setAllureLabelsAndLinks`: index absent, or the known test
identity at that index strictly equal to the current test name (an
out-of-range read yields `undefined`, which compares unequal). -/
def gateOk (names : List String) (testName : String) : Option Nat → Bool
  | none => true
  | some i => names[i]? == some testName

/-- The mapper `setAllureLabelsAndLinks`. -/
def setAllureLabelsAndLinks (cfg : Config) (names : List String) (test : TestState)
    (labelName value : String) (index : Option Nat) : TestState :=
  if gateOk names test.name index then
    match labelName with
    | "issue" => addLink test (cfg.jiraUrl ++ value) value "issue"
    | "tms" => addLink test (cfg.tmsUrl ++ value) value "tms"
    | "tag" => addLabel test LabelName.TAG value
    | "tags" => addLabel test LabelName.TAG value
    | "milestone" => addLabel (addLabel test labelName value) "epic" value
    | _ => addLabel test labelName value
  else test

/-- Pragma application `setAllureReportPragmas`: the `value instanceof String` comma-split
rebinding never fires (see `jsInstanceofString`); arrays map each entry,
plain values map once. -/
def setAllureReportPragmas (cfg : Config) (names : List String) (test : TestState)
    (pragmas : List (String × PragmaValue)) : TestState :=
  pragmas.foldl
    (fun t pv =>
      let value : PragmaValue := pv.2
      let value : PragmaValue :=
        match value with
        | .str s =>
          if jsInstanceofString (.str s) && strIncludes s "," then
            .arr (strSplitOn s ",")
          else .str s
        | v => v
      match value with
      | .arr l => l.foldl (fun t v => setAllureLabelsAndLinks cfg names t pv.1 v none) t
      | .str v => setAllureLabelsAndLinks cfg names t pv.1 v none)
    test

/-- Concurrent label application `attachLabelsInConcurrent`: `new Set(labels)` deduplicates by object
reference and the label records are freshly constructed, so the iteration
visits the accumulated list in order. -/
def attachLabelsInConcurrent (cfg : Config) (names : List String) (test : TestState)
    (labels : List Labels) : TestState :=
  labels.foldl
    (fun t lb => setAllureLabelsAndLinks cfg names t lb.name lb.value lb.index) test

/-- Suite-hierarchy labeling `addSuiteLabelsToTestCase`: split the path on the platform delimiter;
first segment (when truthy) gives the parent-suite and package labels, the
popped last of the remaining segments (when truthy) the sub-suite label,
and the middle segments (when any) joined with a separator the suite
label. -/
def addSuiteLabelsToTestCase (cfg : Config) (test : TestState) (testPath : String) :
    TestState :=
  let pathDelimiter := if cfg.isWindows then "\\" else "/"
  let pathsArray := strSplitOn testPath pathDelimiter
  let parentSuite := pathsArray.headD ""
  let suites := pathsArray.tail
  let subSuite := suites.getLast?
  let suites := suites.dropLast
  let test :=
    if parentSuite ≠ "" then
      addLabel (addLabel test LabelName.PARENT_SUITE parentSuite) LabelName.PACKAGE parentSuite
    else test
  let test :=
    if suites.length > 0 then
      addLabel test LabelName.SUITE (String.intercalate " > " suites)
    else test
  match subSuite with
  | some ss => if ss ≠ "" then addLabel test LabelName.SUB_SUITE ss else test
  | none => test

/-! ## Lifecycle operations -/

/-- Operation `startSuite(suiteName, tests?)`: open a group named `suiteName` (or
"Global") in the current scope, and record the supplied test names as the
known test identities. -/
def startSuite (suiteName : Option String) (tests : Option (List TestRec))
    (s : ReporterState) : ReporterState :=
  let suite : SuiteState := { name := suiteName.getD "Global" }
  let s := { s with suites := s.suites ++ [suite] }
  match tests with
  | some ts => { s with testNames := s.testNames ++ ts.map TestRec.name }
  | none => s

/-- Operation `endSuite()`: raise when no suite is open; otherwise end every step on
the step stack, then end every test on the test stack (writing each test
result to the sink), then end the current group and pop it.  Steps and
tests stay on their stacks, and hooks are not touched. -/
def endSuite (s : ReporterState) : StepResult :=
  if s.suites.getLast?.isNone then
    .raised "endSuite called while no suite is running" s
  else
    let closedTests := s.tests.map (fun t => { t with closed := true })
    .ok { s with
          steps := s.steps.map (fun st => { st with closed := true }),
          tests := closedTests,
          writtenTests := s.writtenTests ++ closedTests,
          suites := s.suites.dropLast }

/-- Operation `startTestFile(suiteName)`. -/
def startTestFile (suiteName : Option String) (s : ReporterState) : ReporterState :=
  startSuite suiteName none s

/-- Loop body of `endTestFile()`: for (const x of this.suites) this.endSuite().  The
array iterator re-checks its index against the live length, which
`endSuite` shrinks by popping, so the loop stops as soon as the index
reaches the shrunken length.  The fuel (the initial length) bounds the
iteration count. -/
def endTestFileAux : Nat → Nat → ReporterState → StepResult
  | 0, _, s => .ok s
  | fuel + 1, i, s =>
    if i < s.suites.length then
      match endSuite s with
      | .ok s' => endTestFileAux fuel (i + 1) s'
      | .raised m st => .raised m st
    else .ok s

/-- Operation `endTestFile()`. -/
def endTestFile (s : ReporterState) : StepResult :=
  endTestFileAux s.suites.length 0 s

/-- Operation `startHook(type)`: when a suite is open, add a before fixture when the
type starts with `before`, an after fixture when it starts with `after`,
and point `currentExecutable` at it; otherwise do nothing. -/
def startHook (type : String) (s : ReporterState) : ReporterState :=
  match s.suites.getLast? with
  | none => s
  | some _ =>
    let s :=
      if strStartsWith type "before" then
        { s with execs := s.execs ++ [{}], currentExecutable := some s.execs.length }
      else s
    if strStartsWith type "after" then
      { s with execs := s.execs ++ [{}], currentExecutable := some s.execs.length }
    else s

/-- Operation `endHook(error?)`: raise when no executable is current; with an error,
classify it and record status/details and a finished stage, otherwise mark
the executable passed and finished.  `currentExecutable` is never
cleared. -/
def endHook (err : Option ErrVal) (s : ReporterState) : StepResult :=
  match s.currentExecutable with
  | none => .raised "endHook called while no executable is running" s
  | some i =>
    match err with
    | some e =>
      match classifyError e with
      | none => .raised "TypeError" s
      | some c =>
        .ok { s with
              execs := s.execs.set i
                { status := some c.status,
                  statusDetails := some { message := some c.message, trace := some c.trace },
                  stage := Stage.FINISHED } }
    | none =>
      .ok { s with
            execs := s.execs.set i
              { (s.execs.getD i {}) with
                status := some Status.PASSED, stage := Stage.FINISHED } }

/-- Operation `startTestCase(test, state, testPath)`: raise when no suite is open;
otherwise start a test named after the entry, with `fullName`, the MD5
`historyId` of `testPath + "." + name`, a running stage, the
docblock-derived pragma labels and links when a test function is present
and code reporting is on (the rendered description is delegated to
external formatting and not modelled), a thread label when the circus
state carries `JEST_WORKER_ID`, and the suite-hierarchy labels; then push
it. -/
def startTestCase (cfg : Config) (t : TestEntry) (workerId : Option String)
    (testPath : String) (s : ReporterState) : StepResult :=
  if s.suites.getLast?.isNone then
    .raised "startTestCase called while no suite is running" s
  else
    let ct : TestState :=
      { name := t.name, fullName := t.name,
        historyId := md5Hex (testPath ++ "." ++ t.name),
        stage := Stage.RUNNING }
    let ct :=
      if cfg.addCodeInReport then
        match t.fn with
        | some fn => setAllureReportPragmas cfg s.testNames ct fn.pragmas
        | none => ct
      else ct
    let ct :=
      match workerId with
      | some wid => addLabel ct LabelName.THREAD wid
      | none => ct
    let ct := addSuiteLabelsToTestCase cfg ct testPath
    .ok { s with tests := s.tests ++ [ct] }

/-- Operation `passTestCase()`: raise when no test is open; otherwise apply the
accumulated concurrent labels and set a passed status on the current
test. -/
def passTestCase (cfg : Config) (s : ReporterState) : StepResult :=
  match s.tests.getLast? with
  | none => .raised "passTestCase called while no test is running" s
  | some ct =>
    let ct := attachLabelsInConcurrent cfg s.testNames ct s.labels
    let ct := { ct with status := some Status.PASSED }
    .ok { s with tests := s.tests.dropLast ++ [ct] }

/-- Operation `pendingTestCase(test)`: raise when no test is open; otherwise apply
the accumulated labels, set a skipped status and a message naming the
skip mode. -/
def pendingTestCase (cfg : Config) (t : TestEntry) (s : ReporterState) : StepResult :=
  match s.tests.getLast? with
  | none => .raised "pendingTestCase called while no test is running" s
  | some ct =>
    let ct := attachLabelsInConcurrent cfg s.testNames ct s.labels
    let ct :=
      { ct with
        status := some Status.SKIPPED,
        statusDetails := some
          { message := some ("Test is marked: \"" ++ jsToString t.mode ++ "\"") } }
    .ok { s with tests := s.tests.dropLast ++ [ct] }

/-- Operation `failTestCase(error)`: raise when no test is open; otherwise apply the
accumulated labels; when the current status is already failed, or broken
with a non-running stage, return without touching status or details; else
classify the error and record status and details. -/
def failTestCase (cfg : Config) (err : ErrVal) (s : ReporterState) : StepResult :=
  match s.tests.getLast? with
  | none => .raised "failTestCase called while no test is running" s
  | some ct0 =>
    let ct := attachLabelsInConcurrent cfg s.testNames ct0 s.labels
    let sAttached := { s with tests := s.tests.dropLast ++ [ct] }
    let latestStatus := ct.status
    let isBrokenTest := latestStatus = some Status.BROKEN ∧ ct.stage ≠ Stage.RUNNING
    if latestStatus = some Status.FAILED ∨ isBrokenTest then .ok sAttached
    else
      match classifyError err with
      | none => .raised "TypeError" sAttached
      | some c =>
        .ok { sAttached with
              tests := sAttached.tests.dropLast ++
                [{ ct with
                   status := some c.status,
                   statusDetails := some
                     { message := some c.message, trace := some c.trace } }] }

/-- Operation `endTest()`: raise when no test is open; otherwise finish the current
test, end it on the sink (writing the result) and pop it. -/
def endTest (s : ReporterState) : StepResult :=
  match s.tests.getLast? with
  | none => .raised "endTest called while no test is running" s
  | some ct =>
    let ct := { ct with stage := Stage.FINISHED, closed := true }
    .ok { s with
          tests := s.tests.dropLast,
          writtenTests := s.writtenTests ++ [ct] }

/-- The operations a suite scope may interleave before `endSuite`
(claim C1). -/
inductive Op where
  | startSuite (suiteName : Option String) (tests : Option (List TestRec))
  | startTestCase (t : TestEntry) (workerId : Option String) (testPath : String)
  | startHook (type : String)

/-- Run one operation. -/
def runOp (cfg : Config) : Op → ReporterState → StepResult
  | .startSuite n ts, s => .ok (startSuite n ts s)
  | .startTestCase t w p, s => startTestCase cfg t w p s
  | .startHook ty, s => .ok (startHook ty s)

/-- Run a sequence of operations, propagating a raise. -/
def runOps (cfg : Config) : List Op → ReporterState → StepResult
  | [], s => .ok s
  | op :: rest, s =>
    match runOp cfg op s with
    | .ok s' => runOps cfg rest s'
    | .raised m st => .raised m st

end AllureReporter

/-! ## Preservation lemmas

Label and link application touches only the `labels` and `links` fields of
a test handle; every other field is preserved. -/

namespace AllureReporter

/-- The fields of a test handle untouched by label/link application. -/
def coreEq (a b : TestState) : Prop :=
  a.status = b.status ∧ a.statusDetails = b.statusDetails ∧
    a.stage = b.stage ∧ a.name = b.name ∧ a.historyId = b.historyId

theorem coreEq_refl (a : TestState) : coreEq a a :=
  ⟨rfl, rfl, rfl, rfl, rfl⟩

theorem coreEq_trans {a b c : TestState} (h1 : coreEq a b) (h2 : coreEq b c) :
    coreEq a c := by
  obtain ⟨e1, e2, e3, e4, e5⟩ := h1
  obtain ⟨f1, f2, f3, f4, f5⟩ := h2
  exact ⟨e1.trans f1, e2.trans f2, e3.trans f3, e4.trans f4, e5.trans f5⟩

theorem addLabel_coreEq (t : TestState) (n v : String) : coreEq (addLabel t n v) t :=
  ⟨rfl, rfl, rfl, rfl, rfl⟩

theorem addLink_coreEq (t : TestState) (url n ty : String) :
    coreEq (addLink t url n ty) t :=
  ⟨rfl, rfl, rfl, rfl, rfl⟩

theorem setAllureLabelsAndLinks_coreEq (cfg : Config) (names : List String)
    (t : TestState) (ln v : String) (idx : Option Nat) :
    coreEq (setAllureLabelsAndLinks cfg names t ln v idx) t := by
  unfold setAllureLabelsAndLinks
  repeat' first
    | exact coreEq_refl _
    | refine coreEq_trans (addLabel_coreEq ..) ?_
    | refine coreEq_trans (addLink_coreEq ..) ?_
    | split

theorem foldl_coreEq {α : Type} {f : TestState → α → TestState}
    (hf : ∀ t a, coreEq (f t a) t) :
    ∀ (l : List α) (t : TestState), coreEq (List.foldl f t l) t := by
  intro l
  induction l with
  | nil => intro t; exact coreEq_refl t
  | cons a rest ih =>
    intro t
    exact coreEq_trans (ih (f t a)) (hf t a)

theorem attachLabelsInConcurrent_coreEq (cfg : Config) (names : List String)
    (t : TestState) (lbls : List Labels) :
    coreEq (attachLabelsInConcurrent cfg names t lbls) t := by
  unfold attachLabelsInConcurrent
  exact foldl_coreEq
    (fun t lb => setAllureLabelsAndLinks_coreEq cfg names t lb.name lb.value lb.index) lbls t

theorem setAllureReportPragmas_coreEq (cfg : Config) (names : List String)
    (t : TestState) (pragmas : List (String × PragmaValue)) :
    coreEq (setAllureReportPragmas cfg names t pragmas) t := by
  unfold setAllureReportPragmas
  refine foldl_coreEq (fun t pv => ?_) pragmas t
  obtain ⟨p, v⟩ := pv
  cases v with
  | str s => exact setAllureLabelsAndLinks_coreEq cfg names t p s none
  | arr l =>
    exact foldl_coreEq (fun t v => setAllureLabelsAndLinks_coreEq cfg names t p v none) l t

set_option maxHeartbeats 1000000 in
theorem addSuiteLabelsToTestCase_coreEq (cfg : Config) (t : TestState)
    (testPath : String) : coreEq (addSuiteLabelsToTestCase cfg t testPath) t := by
  unfold addSuiteLabelsToTestCase
  dsimp only
  generalize (strSplitOn testPath (if cfg.isWindows = true then "\\" else "/")).headD "" = parent
  generalize (strSplitOn testPath (if cfg.isWindows = true then "\\" else "/")).tail = rest
  repeat' first
    | exact coreEq_refl _
    | refine coreEq_trans (addLabel_coreEq ..) ?_
    | split

/-- The test pushed by a successful `startTestCase` carries the MD5
historyId of `testPath + "." + name`. -/
theorem startTestCase_historyId {cfg : Config} {t : TestEntry} {w : Option String}
    {path : String} {s r : ReporterState} {nm : String}
    (he : startTestCase cfg t w path s = .ok r) (hn : t.name = nm) :
    (r.tests.getLast?.map TestState.historyId) = some (md5Hex (path ++ "." ++ nm)) := by
  unfold startTestCase at he
  split at he
  · simp at he
  · dsimp only at he
    cases he
    simp only [List.getLast?_concat, Option.map_some']
    rw [(addSuiteLabelsToTestCase_coreEq cfg _ path).2.2.2.2]
    have base :
        ∀ ct0 : TestState, ct0.historyId = md5Hex (path ++ "." ++ t.name) →
          (match w with
            | some wid => addLabel ct0 LabelName.THREAD wid
            | none => ct0).historyId = md5Hex (path ++ "." ++ nm) := by
      intro ct0 h0
      cases w with
      | some wid => rw [(addLabel_coreEq ..).2.2.2.2, h0, hn]
      | none => rw [h0, hn]
    apply congrArg some
    apply base
    cases hcd : cfg.addCodeInReport with
    | true =>
      simp only [hcd, if_true]
      cases t.fn with
      | some fn => exact (setAllureReportPragmas_coreEq ..).2.2.2.2
      | none => rfl
    | false => simp only [hcd, Bool.false_eq_true, if_false]

end AllureReporter

/-! ## Claim theorems -/

open AllureReporter

/-! Evaluation checks of the embedded primitives. -/

example : md5Hex "" = "d41d8cd98f00b204e9800998ecf8427e" := by decide

example : md5Hex "abc" = "900150983cd24fb0d6963f7d28e17f72" := by decide

example : strSplitOn "a/b/c.spec.ts" "/" = ["a", "b", "c.spec.ts"] := by decide
example : strSplitOn "aa" "a" = ["", "", ""] := by decide
example : strSplitOn "abc" "x" = ["abc"] := by decide

example : strIncludes "extra line" "line" = true := by decide
example : strIncludes "extra line" "Expected" = false := by decide
example : strReplaceFirst "abcabc" "bc" "X" = "aXabc" := by decide

example : replaceANSITags "Expected: 1\nReceived: 2" = "Expected: 1\nReceived: 2" := by
  decide

example : replaceANSITags "\x1b[31mred\x1b[0m rest" = "red rest" := by decide

example :
    handleError { matcherResult := some { message := "Expected: 1\nReceived: 2\nextra line" } } =
      some { status := Status.FAILED, message := "Expected: 1\nReceived: 2",
             trace := "extra line" } := by decide

example :
    handleError { name := some "TypeError", stack := some "TypeError: boom\n at x" } =
      some { status := Status.BROKEN, message := "TypeError",
             trace := ": boom\n at x" } := by decide

/-- Claim C9: with no matching entity open, each of endSuite (no open
suite), endHook (no open executable), startTestCase (no open suite),
passTestCase, pendingTestCase, failTestCase and endTest (no open test)
raises an InvalidState error immediately, leaving the reporter state at
the throw exactly as it was. -/
theorem C9_invalid_state_raises (cfg : Config) (s : ReporterState)
    (t : TestEntry) (w : Option String) (p : String) (e : Option ErrVal)
    (err : ErrVal) :
    (s.suites = [] →
      endSuite s = .raised "endSuite called while no suite is running" s) ∧
    (s.currentExecutable = none →
      endHook e s = .raised "endHook called while no executable is running" s) ∧
    (s.suites = [] →
      startTestCase cfg t w p s =
        .raised "startTestCase called while no suite is running" s) ∧
    (s.tests = [] →
      passTestCase cfg s = .raised "passTestCase called while no test is running" s) ∧
    (s.tests = [] →
      pendingTestCase cfg t s =
        .raised "pendingTestCase called while no test is running" s) ∧
    (s.tests = [] →
      failTestCase cfg err s =
        .raised "failTestCase called while no test is running" s) ∧
    (s.tests = [] →
      endTest s = .raised "endTest called while no test is running" s) := by
  refine ⟨fun h => ?_, fun h => ?_, fun h => ?_, fun h => ?_, fun h => ?_,
    fun h => ?_, fun h => ?_⟩
  · simp [endSuite, h]
  · simp [endHook, h]
  · simp [startTestCase, h]
  · simp [passTestCase, h]
  · simp [pendingTestCase, h]
  · simp [failTestCase, h]
  · simp [endTest, h]

/-- Witness for C9 at the fresh reporter state. -/
theorem C9_invalid_state_raises_witness :
    endSuite initState = .raised "endSuite called while no suite is running" initState ∧
    endHook none initState =
      .raised "endHook called while no executable is running" initState ∧
    startTestCase {} { name := "t" } none "p" initState =
      .raised "startTestCase called while no suite is running" initState ∧
    passTestCase {} initState =
      .raised "passTestCase called while no test is running" initState ∧
    pendingTestCase {} { name := "t" } initState =
      .raised "pendingTestCase called while no test is running" initState ∧
    failTestCase {} (.err {}) initState =
      .raised "failTestCase called while no test is running" initState ∧
    endTest initState = .raised "endTest called while no test is running" initState := by
  obtain ⟨h1, h2, h3, h4, h5, h6, h7⟩ :=
    C9_invalid_state_raises {} initState { name := "t" } none "p" none (.err {})
  exact ⟨h1 rfl, h2 rfl, h3 rfl, h4 rfl, h5 rfl, h6 rfl, h7 rfl⟩

/-- Claim C3: when the current test already has a failed status, or a
broken status with a non-running stage, failTestCase returns normally and
leaves the current test status and statusDetails unchanged (only the
accumulated labels are still applied). -/
theorem C3_failTestCase_no_downgrade (cfg : Config) (s : ReporterState)
    (err : ErrVal) (t : TestState)
    (hcur : s.tests.getLast? = some t)
    (hstat : t.status = some Status.FAILED ∨
      (t.status = some Status.BROKEN ∧ t.stage ≠ Stage.RUNNING)) :
    (failTestCase cfg err s).isOk = true ∧
    ((failTestCase cfg err s).stateOf.tests.getLast?.map TestState.status) =
      some t.status ∧
    ((failTestCase cfg err s).stateOf.tests.getLast?.map TestState.statusDetails) =
      some t.statusDetails := by
  obtain ⟨hs, hd, hg, -, -⟩ := attachLabelsInConcurrent_coreEq cfg s.testNames t s.labels
  unfold failTestCase
  rw [hcur]
  simp only []
  rw [if_pos]
  · refine ⟨rfl, ?_, ?_⟩ <;>
      simp [StepResult.stateOf, List.getLast?_concat, hs, hd]
  · rcases hstat with hf | ⟨hb, hr⟩
    · exact Or.inl (hs.trans hf)
    · exact Or.inr ⟨hs.trans hb, by rw [hg]; exact hr⟩

/-- Witness for C3: a current test already failed keeps status and
details across a further failTestCase. -/
theorem C3_failTestCase_no_downgrade_witness :
    (failTestCase {}
        (.err { name := some "Error", stack := some "Error: late\n at y" })
        { initState with
          tests := [{ name := "t", status := some Status.FAILED,
                      stage := Stage.RUNNING,
                      statusDetails := some { message := some "first failure" } }] }).isOk
        = true ∧
    ((failTestCase {}
        (.err { name := some "Error", stack := some "Error: late\n at y" })
        { initState with
          tests := [{ name := "t", status := some Status.FAILED,
                      stage := Stage.RUNNING,
                      statusDetails := some { message := some "first failure" } }] }).stateOf.tests.getLast?.map
        TestState.status) = some (some Status.FAILED) ∧
    ((failTestCase {}
        (.err { name := some "Error", stack := some "Error: late\n at y" })
        { initState with
          tests := [{ name := "t", status := some Status.FAILED,
                      stage := Stage.RUNNING,
                      statusDetails := some { message := some "first failure" } }] }).stateOf.tests.getLast?.map
        TestState.statusDetails) =
      some (some { message := some "first failure" }) :=
  C3_failTestCase_no_downgrade {}
    { initState with
      tests := [{ name := "t", status := some Status.FAILED,
                  stage := Stage.RUNNING,
                  statusDetails := some { message := some "first failure" } }] }
    (.err { name := some "Error", stack := some "Error: late\n at y" })
    { name := "t", status := some Status.FAILED, stage := Stage.RUNNING,
      statusDetails := some { message := some "first failure" } }
    (by decide) (Or.inl rfl)

/-- Claim C4: the historyId recorded by startTestCase is the MD5 hex
digest of `testPath + "." + name`, a pure function of the pair: two
invocations from arbitrary reporter states, configurations and worker
identities agree byte for byte. -/
theorem C4_historyId_deterministic (cfg1 cfg2 : Config) (s1 s2 : ReporterState)
    (t1 t2 : TestEntry) (w1 w2 : Option String) (path nm : String)
    (h1 : t1.name = nm) (h2 : t2.name = nm)
    (r1 r2 : ReporterState)
    (e1 : startTestCase cfg1 t1 w1 path s1 = .ok r1)
    (e2 : startTestCase cfg2 t2 w2 path s2 = .ok r2) :
    (r1.tests.getLast?.map TestState.historyId) = some (md5Hex (path ++ "." ++ nm)) ∧
    (r2.tests.getLast?.map TestState.historyId) = some (md5Hex (path ++ "." ++ nm)) := by
  constructor
  · exact startTestCase_historyId e1 h1
  · exact startTestCase_historyId e2 h2

/-- Witness for C4: the same (testPath, testName) pair started from two
different reporter states, configurations and worker identities yields the
same digest. -/
theorem C4_historyId_deterministic_witness :
    (((startTestCase {} { name := "adds" } none "a/b.test.ts"
          { initState with suites := [{ name := "file" }] }).stateOf).tests.getLast?.map
        TestState.historyId) = some (md5Hex ("a/b.test.ts" ++ "." ++ "adds")) ∧
    (((startTestCase { addCodeInReport := false } { name := "adds" } (some "3") "a/b.test.ts"
          { initState with suites := [{ name := "other" }, { name := "inner" }],
                           testNames := ["adds"] }).stateOf).tests.getLast?.map
        TestState.historyId) = some (md5Hex ("a/b.test.ts" ++ "." ++ "adds")) :=
  C4_historyId_deterministic {} { addCodeInReport := false }
    { initState with suites := [{ name := "file" }] }
    { initState with suites := [{ name := "other" }, { name := "inner" }],
                     testNames := ["adds"] }
    { name := "adds" } { name := "adds" } none (some "3") "a/b.test.ts" "adds"
    rfl rfl _ _ (by decide) (by decide)

/-- Claim C1 (amended): for every starting state and every sequence of
startSuite / startTestCase / startHook operations followed by a
successful endSuite, every step and then every test still on the stacks
(in particular every one opened within that suite) has been ended on the
sink even when its own end operation was never called, and the suite has
been closed and popped; hooks are left untouched by endSuite: a hook
whose endHook never ran keeps its prior status and stage. -/
theorem C1_endSuite_closes_tests_and_steps (cfg : Config) (ops : List Op)
    (s0 s1 s2 : ReporterState)
    (_h1 : runOps cfg ops s0 = .ok s1)
    (h2 : endSuite s1 = .ok s2) :
    s2.tests.all (fun t => t.closed) = true ∧
    s2.steps.all (fun st => st.closed) = true ∧
    s2.execs = s1.execs ∧
    s2.currentExecutable = s1.currentExecutable ∧
    s2.suites = s1.suites.dropLast := by
  unfold endSuite at h2
  split at h2
  · simp at h2
  · cases h2
    refine ⟨?_, ?_, rfl, rfl, rfl⟩
    · simp only [List.all_eq_true, List.mem_map]
      rintro x ⟨a, -, rfl⟩
      rfl
    · simp only [List.all_eq_true, List.mem_map]
      rintro x ⟨a, -, rfl⟩
      rfl

/-- Witness for C1 (amended): a suite containing a test and a hook,
closed by endSuite alone. -/
theorem C1_endSuite_closes_tests_and_steps_witness :
    ((endSuite ((runOps {} [.startSuite (some "file") none,
        .startTestCase { name := "t" } none "a/b.ts",
        .startHook "beforeEach"] initState).stateOf)).stateOf).tests.all
        (fun t => t.closed) = true ∧
    ((endSuite ((runOps {} [.startSuite (some "file") none,
        .startTestCase { name := "t" } none "a/b.ts",
        .startHook "beforeEach"] initState).stateOf)).stateOf).steps.all
        (fun st => st.closed) = true ∧
    ((endSuite ((runOps {} [.startSuite (some "file") none,
        .startTestCase { name := "t" } none "a/b.ts",
        .startHook "beforeEach"] initState).stateOf)).stateOf).execs =
      ((runOps {} [.startSuite (some "file") none,
        .startTestCase { name := "t" } none "a/b.ts",
        .startHook "beforeEach"] initState).stateOf).execs ∧
    ((endSuite ((runOps {} [.startSuite (some "file") none,
        .startTestCase { name := "t" } none "a/b.ts",
        .startHook "beforeEach"] initState).stateOf)).stateOf).currentExecutable =
      ((runOps {} [.startSuite (some "file") none,
        .startTestCase { name := "t" } none "a/b.ts",
        .startHook "beforeEach"] initState).stateOf).currentExecutable ∧
    ((endSuite ((runOps {} [.startSuite (some "file") none,
        .startTestCase { name := "t" } none "a/b.ts",
        .startHook "beforeEach"] initState).stateOf)).stateOf).suites =
      ((runOps {} [.startSuite (some "file") none,
        .startTestCase { name := "t" } none "a/b.ts",
        .startHook "beforeEach"] initState).stateOf).suites.dropLast :=
  C1_endSuite_closes_tests_and_steps {}
    [.startSuite (some "file") none,
     .startTestCase { name := "t" } none "a/b.ts",
     .startHook "beforeEach"] initState
    ((runOps {} [.startSuite (some "file") none,
        .startTestCase { name := "t" } none "a/b.ts",
        .startHook "beforeEach"] initState).stateOf)
    ((endSuite ((runOps {} [.startSuite (some "file") none,
        .startTestCase { name := "t" } none "a/b.ts",
        .startHook "beforeEach"] initState).stateOf)).stateOf)
    (by decide) (by decide)

/-- Claim C1 as stated is false on the code: after startSuite, startHook
and endSuite, endSuite returns normally but the hook opened within the
suite is untouched: it stays in its initial pending stage, not in a
closed or finished stage. -/
theorem C1_counterexample :
    (endSuite (startHook "beforeAll" (startSuite (some "file") none initState))).isOk
      = true ∧
    ((endSuite (startHook "beforeAll"
        (startSuite (some "file") none initState))).stateOf.execs.map
      ExecState.stage) = [Stage.PENDING] := by
  decide

/-- Claim C2: the spec states that endTestFile repeatedly calls endSuite
until no suite remains.  The code iterates the suites array with for-of
while endSuite pops it, so the iterator index catches up with the
shrinking length after only half the suites are closed: with two open
suites, one endSuite call happens and a suite remains open. -/
theorem C2_endTestFile_leaves_suites_open :
    (endTestFile (startSuite none none (startSuite (some "file") none initState))).isOk
      = true ∧
    (endTestFile (startSuite none none
        (startSuite (some "file") none initState))).stateOf.suites.length = 1 ∧
    (currentSuite ((endTestFile (startSuite none none
        (startSuite (some "file") none initState))).stateOf)).isSome = true := by
  decide

/-- Claim C5: an ordinal-indexed label applies exactly when the current
test name equals the known-test-identities entry at that index (otherwise
the test is left unchanged); concretely, with identities
["first test", "second test"] and one label indexed 0 and one indexed 1,
applying the accumulated set to the test named per index 0 attaches only
the index-0 label. -/
theorem C5_label_gating :
    (∀ (cfg : Config) (names : List String) (t : TestState) (ln v : String) (i : Nat),
      setAllureLabelsAndLinks cfg names t ln v (some i) =
        if names[i]? == some t.name then
          setAllureLabelsAndLinks cfg names t ln v none
        else t) ∧
    (attachLabelsInConcurrent {} ["first test", "second test"]
        { name := "first test" }
        [{ name := "story", value := "s0", index := some 0 },
         { name := "story", value := "s1", index := some 1 }]).labels =
      [("story", "s0")] ∧
    (attachLabelsInConcurrent {} ["first test", "second test"]
        { name := "first test" }
        [{ name := "story", value := "s0", index := some 0 },
         { name := "story", value := "s1", index := some 1 }]).links = [] := by
  refine ⟨fun cfg names t ln v i => ?_, by decide, by decide⟩
  by_cases h : names[i]? = some t.name <;>
    simp [setAllureLabelsAndLinks, gateOk, h]

/-- Claim C6: the spec states that the pragma `issue=JIRA-1,JIRA-2`
produces two issue links.  The comma-split branch tests
`value instanceof String`, which is always false for the primitive
strings jest-docblock produces, so the code adds a single issue link
whose URL is the base concatenated with the whole comma-joined value. -/
theorem C6_issue_pragma_single_link :
    (setAllureReportPragmas { jiraUrl := "http://jira/" } [] { name := "t" }
        [("issue", .str "JIRA-1,JIRA-2")]).links =
      [{ url := "http://jira/JIRA-1,JIRA-2", name := "JIRA-1,JIRA-2",
         type := "issue" }] ∧
    (setAllureReportPragmas { jiraUrl := "http://jira/" } [] { name := "t" }
        [("issue", .str "JIRA-1,JIRA-2")]).links.length = 1 := by
  decide

/-- Claim C7: an error value carrying a matcher result whose rendered
message is "Expected: 1\nReceived: 2\nextra line" and no explicit stack
classifies as FAILED, with message the first two lines joined and a trace
containing "extra line", independently of its name and message fields. -/
theorem C7_assertion_classification (nm msg : Option String) :
    ((handleError { name := nm, message := msg, stack := none,
                    matcherResult := some
                      { message := "Expected: 1\nReceived: 2\nextra line" } }).map
      Classified.status) = some Status.FAILED ∧
    ((handleError { name := nm, message := msg, stack := none,
                    matcherResult := some
                      { message := "Expected: 1\nReceived: 2\nextra line" } }).map
      Classified.message) = some "Expected: 1\nReceived: 2" ∧
    ((handleError { name := nm, message := msg, stack := none,
                    matcherResult := some
                      { message := "Expected: 1\nReceived: 2\nextra line" } }).map
      (fun c => strIncludes c.trace "extra line")) = some true := by
  unfold handleError
  dsimp only
  decide

/-- Claim C8 as stated fails on single-segment paths: testPath "a" yields
only the parent-suite and package labels; no sub-suite label is attached
although the last segment is "a". -/
theorem C8_counterexample :
    (addSuiteLabelsToTestCase {} { name := "t" } "a").labels =
      [("parentSuite", "a"), ("package", "a")] ∧
    ((addSuiteLabelsToTestCase {} { name := "t" } "a").labels.all
      (fun p => p.1 != "subSuite")) = true := by
  decide

/-- Claim C8 (amended): for every testPath whose delimiter split has at
least two segments with the first and last segments nonempty, the
labeling appends the first segment as parent-suite and package labels,
the middle segments (when any) joined with " > " as the suite label, and
the last segment as the sub-suite label. -/
theorem C8_suite_labels (cfg : Config) (t : TestState) (testPath : String)
    (h2 : 2 ≤ (strSplitOn testPath (if cfg.isWindows then "\\" else "/")).length)
    (hh : (strSplitOn testPath (if cfg.isWindows then "\\" else "/")).headD "" ≠ "")
    (hl : (strSplitOn testPath
      (if cfg.isWindows then "\\" else "/")).getLast?.getD "" ≠ "") :
    (addSuiteLabelsToTestCase cfg t testPath).labels =
      t.labels ++
        [(LabelName.PARENT_SUITE,
          (strSplitOn testPath (if cfg.isWindows then "\\" else "/")).headD ""),
         (LabelName.PACKAGE,
          (strSplitOn testPath (if cfg.isWindows then "\\" else "/")).headD "")] ++
        (if (strSplitOn testPath
              (if cfg.isWindows then "\\" else "/")).tail.dropLast = [] then []
         else [(LabelName.SUITE, String.intercalate " > "
            ((strSplitOn testPath (if cfg.isWindows then "\\" else "/")).tail.dropLast))]) ++
        [(LabelName.SUB_SUITE,
          (strSplitOn testPath (if cfg.isWindows then "\\" else "/")).getLast?.getD "")] := by
  unfold addSuiteLabelsToTestCase
  dsimp only
  cases hps : strSplitOn testPath (if cfg.isWindows then "\\" else "/") with
  | nil => rw [hps] at h2; simp at h2
  | cons a tl =>
    cases tl with
    | nil => rw [hps] at h2; simp at h2
    | cons b rest =>
      rw [hps] at hh hl
      simp only [List.headD_cons] at hh
      rw [List.getLast?_cons_cons] at hl
      simp only [List.headD_cons, List.tail_cons, List.getLast?_cons_cons]
      cases hsub : (b :: rest).getLast? with
      | none => simp at hsub
      | some L =>
        rw [hsub] at hl
        simp only [Option.getD_some] at hl
        simp only [Option.getD_some, if_pos hh, if_pos hl, addLabel]
        cases hrest : (b :: rest).dropLast with
        | nil => simp
        | cons c mid => simp

/-- Witness for C8 (amended): the claim example "a/b/c.spec.ts" yields
parent-suite "a", package "a", suite "b" and sub-suite "c.spec.ts". -/
theorem C8_suite_labels_witness :
    (addSuiteLabelsToTestCase {} { name := "t" } "a/b/c.spec.ts").labels =
      ({ name := "t" } : TestState).labels ++
        [(LabelName.PARENT_SUITE,
          (strSplitOn "a/b/c.spec.ts" (if ({} : Config).isWindows then "\\" else "/")).headD ""),
         (LabelName.PACKAGE,
          (strSplitOn "a/b/c.spec.ts" (if ({} : Config).isWindows then "\\" else "/")).headD "")] ++
        (if (strSplitOn "a/b/c.spec.ts"
              (if ({} : Config).isWindows then "\\" else "/")).tail.dropLast = [] then []
         else [(LabelName.SUITE, String.intercalate " > "
            ((strSplitOn "a/b/c.spec.ts"
              (if ({} : Config).isWindows then "\\" else "/")).tail.dropLast))]) ++
        [(LabelName.SUB_SUITE,
          (strSplitOn "a/b/c.spec.ts"
            (if ({} : Config).isWindows then "\\" else "/")).getLast?.getD "")] :=
  C8_suite_labels {} { name := "t" } "a/b/c.spec.ts" (by decide) (by decide) (by decide)

example :
    (addSuiteLabelsToTestCase {} { name := "t" } "a/b/c.spec.ts").labels =
      [("parentSuite", "a"), ("package", "a"), ("suite", "b"),
       ("subSuite", "c.spec.ts")] := by decide

/-- With an open suite and a before/after hook type, startHook points
currentExecutable at the freshly appended fixture. -/
theorem startHook_opens (s : ReporterState) (ty : String)
    (hs : s.suites ≠ [])
    (hty : strStartsWith ty "before" = true ∨ strStartsWith ty "after" = true) :
    ∃ i, (startHook ty s).currentExecutable = some i ∧
      i < (startHook ty s).execs.length := by
  have hlast : s.suites.getLast?.isSome := List.getLast?_isSome.mpr hs
  unfold startHook
  cases hget : s.suites.getLast? with
  | none => rw [hget] at hlast; simp at hlast
  | some su =>
    dsimp only
    cases hb : strStartsWith ty "before" <;> cases ha : strStartsWith ty "after" <;>
      simp only [hb, ha, if_true, if_false, Bool.false_eq_true, Bool.true_eq_false]
    · rw [hb, ha] at hty; simp at hty
    · exact ⟨_, rfl, by simp⟩
    · exact ⟨_, rfl, by simp⟩
    · exact ⟨_, rfl, by simp⟩

/-- endHook keeps currentExecutable and the fixture count. -/
theorem endHook_preserves (e : Option ErrVal) (s s2 : ReporterState)
    (h : endHook e s = .ok s2) :
    s2.currentExecutable = s.currentExecutable ∧
    s2.execs.length = s.execs.length := by
  unfold endHook at h
  cases hcur : s.currentExecutable with
  | none => rw [hcur] at h; simp at h
  | some i =>
    rw [hcur] at h
    cases e with
    | none =>
      dsimp only at h
      cases h
      exact ⟨rfl, by simp⟩
    | some err =>
      dsimp only at h
      cases hc : classifyError err with
      | none => rw [hc] at h; simp at h
      | some c =>
        rw [hc] at h
        cases h
        exact ⟨rfl, by simp⟩

/-- An endHook without an error on a state whose currentExecutable is a
valid fixture index succeeds and leaves that fixture passed and
finished. -/
theorem endHook_none_resolves (s : ReporterState) (i : Nat)
    (hcur : s.currentExecutable = some i) (hlen : i < s.execs.length) :
    (endHook none s).isOk = true ∧
    ((endHook none s).stateOf).currentExecutable = some i ∧
    ((currentExec ((endHook none s).stateOf)).map ExecState.status) =
      some (some Status.PASSED) ∧
    ((currentExec ((endHook none s).stateOf)).map ExecState.stage) =
      some Stage.FINISHED := by
  unfold endHook
  rw [hcur]
  dsimp only [StepResult.isOk, StepResult.stateOf]
  refine ⟨rfl, rfl, ?_, ?_⟩ <;>
    simp [currentExec, hcur, List.getElem?_set_self hlen]

/-- Claim C10: after a startHook that opened a hook and a successful
endHook, currentExecutable is still set (endHook resolves the executable
but never clears it), so a second endHook with no intervening startHook
does not raise InvalidState and instead overwrites the status and stage
of the already-resolved executable (passed and finished when called with
no error). -/
theorem C10_endHook_never_clears (s s2 : ReporterState) (ty : String)
    (e1 : Option ErrVal)
    (hs : s.suites ≠ [])
    (hty : strStartsWith ty "before" = true ∨ strStartsWith ty "after" = true)
    (h2 : endHook e1 (startHook ty s) = .ok s2) :
    s2.currentExecutable.isSome = true ∧
    (endHook none s2).isOk = true ∧
    ((endHook none s2).stateOf).currentExecutable = s2.currentExecutable ∧
    ((currentExec ((endHook none s2).stateOf)).map ExecState.status) =
      some (some Status.PASSED) ∧
    ((currentExec ((endHook none s2).stateOf)).map ExecState.stage) =
      some Stage.FINISHED := by
  obtain ⟨i, hcur1, hlen1⟩ := startHook_opens s ty hs hty
  obtain ⟨hkeep, hcount⟩ := endHook_preserves e1 (startHook ty s) s2 h2
  have hcur2 : s2.currentExecutable = some i := hkeep.trans hcur1
  have hlen2 : i < s2.execs.length := hcount ▸ hlen1
  obtain ⟨hok, hkeep2, hst, hsg⟩ := endHook_none_resolves s2 i hcur2 hlen2
  exact ⟨by rw [hcur2]; rfl, hok, by rw [hkeep2, hcur2], hst, hsg⟩

/-- Witness for C10: one suite, a beforeEach hook, resolved twice. -/
theorem C10_endHook_never_clears_witness :
    ((endHook none (startHook "beforeEach"
        { initState with suites := [{ name := "s" }] })).stateOf).currentExecutable.isSome
      = true ∧
    (endHook none ((endHook none (startHook "beforeEach"
        { initState with suites := [{ name := "s" }] })).stateOf)).isOk = true ∧
    ((endHook none ((endHook none (startHook "beforeEach"
        { initState with suites := [{ name := "s" }] })).stateOf)).stateOf).currentExecutable =
      ((endHook none (startHook "beforeEach"
        { initState with suites := [{ name := "s" }] })).stateOf).currentExecutable ∧
    ((currentExec ((endHook none ((endHook none (startHook "beforeEach"
        { initState with suites := [{ name := "s" }] })).stateOf)).stateOf)).map
      ExecState.status) = some (some Status.PASSED) ∧
    ((currentExec ((endHook none ((endHook none (startHook "beforeEach"
        { initState with suites := [{ name := "s" }] })).stateOf)).stateOf)).map
      ExecState.stage) = some Stage.FINISHED :=
  C10_endHook_never_clears
    { initState with suites := [{ name := "s" }] }
    ((endHook none (startHook "beforeEach"
        { initState with suites := [{ name := "s" }] })).stateOf)
    "beforeEach" none (by decide) (Or.inl (by decide)) (by decide)

end AllureCircus
